import Mathlib

/-!
Shallow embedding of `src/sendmail.py`: a script that parses a hardcoded
conversation transcript with substring checks, looks the resulting call
descriptor up in a one-entry function registry, and invokes the registered
notification sender, which performs a single HTTP POST.

Python strings are modelled as `List Char`; Python's substring operator
`in` is `List.isInfixOf`; `str.lower()` is a character-wise `Char.toLower`
map.  The network is modelled as an abstract pure function from an HTTP
request to a response whose parsed JSON body is an opaque value; every
function that can perform network I/O additionally returns the list of
HTTP requests it issued, so that "no network call happens" is expressible.
A raised `ValueError` is modelled as `Except.error` carrying the message.
-/

namespace Sendmail

/-- Keyword-argument maps (Python `dict` of string keys and string values,
as built by `parse_conversation` and expanded by `**parameters`). -/
abbrev Params := List (String × String)

/-- An outbound HTTP POST: target URL and JSON body (flat string map, as in
`requests.post(API_URL, json=payload)`). -/
structure HttpRequest where
  url : String
  payload : Params
deriving DecidableEq, Repr

/-- The response to an HTTP request; `json` is the parsed JSON body
(`response.json()` in the source), opaque of type `ρ`. -/
structure HttpResponse (ρ : Type) where
  json : ρ

/-- The fixed endpoint `API_URL` from the source. -/
def API_URL : String := "https://api.rester.example/notify"

/-- Embedding of `sendNotification(recipient, message, channel="email")`:
builds the payload dict, POSTs it to `API_URL`, and returns the parsed
JSON of the response.  The second component is the trace of HTTP requests
issued (exactly one).  The Python default `channel="email"` is applied at
the keyword-binding site (`sendNotificationOnParams`). -/
def sendNotification {ρ : Type} (net : HttpRequest → HttpResponse ρ)
    (recipient message channel : String) : ρ × List HttpRequest :=
  let payload : Params :=
    [("recipient", recipient), ("message", message), ("channel", channel)]
  let request : HttpRequest := ⟨API_URL, payload⟩
  ((net request).json, [request])

/-- Python keyword expansion `sendNotification(**p)` for the signature
`(recipient, message, channel="email")`: binding fails with a `TypeError`
(no call body runs, so no request is issued) when a required key is
missing or an unexpected key is present; otherwise the call runs with
`channel` defaulting to `"email"`. -/
def sendNotificationOnParams {ρ : Type} (net : HttpRequest → HttpResponse ρ)
    (p : Params) : Except String ρ × List HttpRequest :=
  if (p.map Prod.fst).all
      (fun k => k == "recipient" || k == "message" || k == "channel") then
    match p.lookup "recipient", p.lookup "message" with
    | some recipient, some message =>
        let channel := (p.lookup "channel").getD "email"
        let result := sendNotification net recipient message channel
        (Except.ok result.1, result.2)
    | _, _ => (Except.error "TypeError", [])
  else (Except.error "TypeError", [])

/-- The registry `functions = {"sendNotification": sendNotification}`,
parameterised by the network. -/
def functions {ρ : Type} (net : HttpRequest → HttpResponse ρ) :
    List (String × (Params → Except String ρ × List HttpRequest)) :=
  [("sendNotification", sendNotificationOnParams net)]

/-- The hardcoded conversation transcript from the source. -/
def conversation : List Char :=
  ("\nHuman: Notify the team about the urgent meeting tomorrow.\nBot: Which team?\nHuman: DevOps, at 10 AM.\n").data

/-- Character-wise lowering, embedding Python `convo.lower()`. -/
def lower (s : List Char) : List Char := s.map Char.toLower

/-- Embedding of Python substring containment `needle in hay`: some
contiguous run of `hay` equals `needle`. -/
def containsSubstring (needle : List Char) : List Char → Bool
  | [] => needle.isPrefixOf []
  | c :: rest => needle.isPrefixOf (c :: rest) || containsSubstring needle rest

/-- The literal token `"notify"` checked case-insensitively. -/
def notifyToken : List Char := "notify".data

/-- The literal token `"DevOps"` checked case-sensitively. -/
def devopsToken : List Char := "DevOps".data

/-- Embedding of `"Urgent: Meeting at {time} tomorrow".format(time=...)`. -/
def formatTemplate (time : String) : String :=
  "Urgent: Meeting at " ++ time ++ " tomorrow"

/-- The structured call descriptor produced by the parser: a function name
and a keyword-parameter map. -/
structure CallDescriptor where
  functionName : String
  parameters : Params
deriving DecidableEq, Repr

/-- Embedding of `parse_conversation`: if `"notify" in convo.lower() and
"DevOps" in convo`, return the fixed descriptor, else `None`. -/
def parse_conversation (convo : List Char) : Option CallDescriptor :=
  if containsSubstring notifyToken (lower convo) &&
      containsSubstring devopsToken convo then
    some ⟨"sendNotification",
      [("recipient", "DevOps"),
       ("message", formatTemplate "10 AM"),
       ("channel", "email")]⟩
  else
    none

/-- The message of the `ValueError` raised by the validation step. -/
def valueErrorMessage : String := "Invalid function or parsing failed"

/-- Embedding of steps 3 and 4 of the script: validate the extracted
descriptor (`if not extracted or extracted["functionName"] not in
functions: raise ValueError(...)`) and invoke the registered callable with
the descriptor's parameters.  Registry callables return a value of type
`κ` together with a trace of effects of type `τ`; on either failure no
callable runs, so the trace is empty. -/
def dispatch {κ τ : Type} (registry : List (String × (Params → κ × List τ)))
    (extracted : Option CallDescriptor) : Except String κ × List τ :=
  match extracted with
  | none => (Except.error valueErrorMessage, [])
  | some d =>
      match registry.lookup d.functionName with
      | none => (Except.error valueErrorMessage, [])
      | some f =>
          let result := f d.parameters
          (Except.ok result.1, result.2)

/-- The whole script run on its hardcoded conversation against an abstract
network: parse, validate, invoke `sendNotification`. -/
def runScript {ρ : Type} (net : HttpRequest → HttpResponse ρ) :
    Except String (Except String ρ) × List HttpRequest :=
  dispatch (functions net) (parse_conversation conversation)

/-- A stub wrapper turning a pure callable into a registry entry that
records each invocation's parameter map in the trace. -/
def instrument {ρ : Type} (f : Params → ρ) : Params → ρ × List Params :=
  fun p => (f p, [p])

/-- The parameter map of the descriptor the parser produces on a match. -/
def exampleParameters : Params :=
  [("recipient", "DevOps"),
   ("message", "Urgent: Meeting at 10 AM tomorrow"),
   ("channel", "email")]

/-- Evaluation of the parser on the hardcoded transcript. -/
theorem parse_conversation_eval :
    parse_conversation conversation =
      some ⟨"sendNotification", exampleParameters⟩ := by
  rfl

/-- Claim C1: every transcript that contains the token "notify"
case-insensitively and the token "DevOps" case-sensitively is parsed to a
non-absent descriptor with functionName "sendNotification" and parameters
recipient = "DevOps", message = "Urgent: Meeting at 10 AM tomorrow",
channel = "email". -/
theorem parse_matching (convo : List Char)
    (h1 : containsSubstring notifyToken (lower convo) = true)
    (h2 : containsSubstring devopsToken convo = true) :
    parse_conversation convo =
      some ⟨"sendNotification", exampleParameters⟩ := by
  unfold parse_conversation
  rw [h1, h2]
  rfl

/-- Witness for C1 at the hardcoded transcript. -/
theorem parse_matching_witness :
    containsSubstring notifyToken (lower conversation) = true ∧
    containsSubstring devopsToken conversation = true ∧
    parse_conversation conversation =
      some ⟨"sendNotification", exampleParameters⟩ :=
  ⟨by decide, by decide, parse_matching conversation (by decide) (by decide)⟩

/-- Claim C3: every transcript lacking the case-insensitive token "notify"
or lacking the case-sensitive token "DevOps" is parsed to the absent
result `none`, returned as a value. -/
theorem parse_nonMatching (convo : List Char)
    (h : containsSubstring notifyToken (lower convo) = false ∨
         containsSubstring devopsToken convo = false) :
    parse_conversation convo = none := by
  unfold parse_conversation
  rcases h with h | h <;> rw [h] <;> simp

/-- Witness for C3 at a transcript with neither token. -/
theorem parse_nonMatching_witness :
    (containsSubstring notifyToken (lower "hello".data) = false ∨
     containsSubstring devopsToken "hello".data = false) ∧
    parse_conversation "hello".data = none :=
  ⟨Or.inl (by decide), parse_nonMatching "hello".data (Or.inl (by decide))⟩

/-- Claim C7: the parser is deterministic and side-effect free; two runs on
the same transcript yield equal results (it is a pure function of the
transcript, so the two results coincide). -/
theorem parse_deterministic (convo : List Char) :
    parse_conversation convo = parse_conversation convo := rfl

/-- Claim C4: dispatching an absent descriptor fails with the ValueError,
for every registry, and no registry callable runs (the effect trace is
empty and the outcome does not depend on the registry at all). -/
theorem dispatch_absent {κ τ : Type}
    (registry : List (String × (Params → κ × List τ))) :
    dispatch registry none = (Except.error valueErrorMessage, []) := rfl

/-- Claim C5: dispatching a non-absent descriptor whose functionName is not
a key of the registry fails with the ValueError and no registry callable
runs, so the effect trace (in particular, the network trace) is empty. -/
theorem dispatch_unknownFunction {κ τ : Type}
    (registry : List (String × (Params → κ × List τ))) (d : CallDescriptor)
    (h : registry.lookup d.functionName = none) :
    dispatch registry (some d) = (Except.error valueErrorMessage, []) := by
  simp [dispatch, h]

/-- Witness for C5: empty registry and a concrete descriptor. -/
theorem dispatch_unknownFunction_witness :
    ([] : List (String × (Params → Nat × List Nat))).lookup
      (CallDescriptor.functionName ⟨"foo", []⟩) = none ∧
    dispatch ([] : List (String × (Params → Nat × List Nat)))
      (some ⟨"foo", []⟩) = (Except.error valueErrorMessage, []) :=
  ⟨rfl, dispatch_unknownFunction [] ⟨"foo", []⟩ rfl⟩

/-- Claim C2: if the registry maps "sendNotification" to an instrumented
sender callable, dispatching the descriptor parsed from the hardcoded
transcript invokes that callable exactly once (the invocation trace is the
one-element list of the expanded named arguments recipient = "DevOps",
message = "Urgent: Meeting at 10 AM tomorrow", channel = "email") and the
overall result is the callable's return value verbatim. -/
theorem dispatch_example_invokesOnce {ρ : Type} (f : Params → ρ)
    (registry : List (String × (Params → ρ × List Params)))
    (h : registry.lookup "sendNotification" = some (instrument f)) :
    dispatch registry (parse_conversation conversation) =
      (Except.ok (f exampleParameters), [exampleParameters]) := by
  rw [parse_conversation_eval]
  simp [dispatch, h, instrument]

/-- Witness for C2 with a stub sender returning a fixed status object. -/
theorem dispatch_example_invokesOnce_witness :
    dispatch [("sendNotification", instrument (fun _ => [("status", "ok")]))]
        (parse_conversation conversation) =
      (Except.ok [("status", "ok")], [exampleParameters]) :=
  dispatch_example_invokesOnce (fun _ => [("status", "ok")])
    [("sendNotification", instrument (fun _ => [("status", "ok")]))] rfl

/-- Claim C6: for every network and every recipient, message and channel,
sendNotification builds the JSON body with exactly the keys "recipient",
"message", "channel" bound to its arguments, performs a single HTTP POST
of that body to API_URL, and returns the parsed JSON response body
unchanged. -/
theorem sendNotification_wire {ρ : Type} (net : HttpRequest → HttpResponse ρ)
    (recipient message channel : String) :
    sendNotification net recipient message channel =
      ((net ⟨API_URL, [("recipient", recipient), ("message", message),
          ("channel", channel)]⟩).json,
       [⟨API_URL, [("recipient", recipient), ("message", message),
          ("channel", channel)]⟩]) := rfl

/-- Claim C8: every descriptor the parser produces has functionName
"sendNotification", which is a key of the registry `functions`, so the
unknown-function condition of the dispatch validation never holds for
parser-produced descriptors. -/
theorem parsed_functionName_registered {ρ : Type}
    (net : HttpRequest → HttpResponse ρ) (convo : List Char)
    (d : CallDescriptor) (h : parse_conversation convo = some d) :
    d.functionName = "sendNotification" ∧
    (functions net).lookup d.functionName ≠ none := by
  unfold parse_conversation at h
  split at h
  · cases h
    exact ⟨rfl, by simp [functions]⟩
  · exact Option.noConfusion h

/-- Witness for C8 at the hardcoded transcript with a trivial network. -/
theorem parsed_functionName_registered_witness :
    CallDescriptor.functionName ⟨"sendNotification", exampleParameters⟩ =
      "sendNotification" ∧
    (functions (fun _ => (⟨0⟩ : HttpResponse Nat))).lookup
      (CallDescriptor.functionName
        ⟨"sendNotification", exampleParameters⟩) ≠ none :=
  parsed_functionName_registered (fun _ => (⟨0⟩ : HttpResponse Nat))
    conversation ⟨"sendNotification", exampleParameters⟩
    parse_conversation_eval

/-- Claim C9: on the hardcoded conversation the parser returns a non-absent
descriptor whose functionName is in the registry, so the ValueError branch
is unreachable and the run invokes sendNotification: for every network the
script's dispatch succeeds and issues exactly the one expected POST,
returning its parsed JSON response. -/
theorem script_run_succeeds {ρ : Type} (net : HttpRequest → HttpResponse ρ) :
    parse_conversation conversation ≠ none ∧
    (runScript net).1 ≠ Except.error valueErrorMessage ∧
    runScript net =
      (Except.ok (Except.ok
          (net ⟨API_URL, exampleParameters⟩).json),
       [⟨API_URL, exampleParameters⟩]) := by
  have hmain : runScript net =
      (Except.ok (Except.ok (net ⟨API_URL, exampleParameters⟩).json),
       [⟨API_URL, exampleParameters⟩]) := by
    unfold runScript
    rw [parse_conversation_eval]
    rfl
  refine ⟨?_, ?_, hmain⟩
  · rw [parse_conversation_eval]
    simp
  · rw [hmain]
    simp

/-- Claim C10: the absent-descriptor failure and the unknown-function
failure are indistinguishable to the caller: both produce the same error
with the identical message "Invalid function or parsing failed". -/
theorem failures_indistinguishable {κ τ : Type}
    (registry : List (String × (Params → κ × List τ))) (d : CallDescriptor)
    (h : registry.lookup d.functionName = none) :
    (dispatch registry none).1 = (dispatch registry (some d)).1 ∧
    (dispatch registry none).1 =
      Except.error "Invalid function or parsing failed" := by
  simp [dispatch, h, valueErrorMessage]

/-- Witness for C10: empty registry and a concrete descriptor. -/
theorem failures_indistinguishable_witness :
    ([] : List (String × (Params → Nat × List Nat))).lookup
      (CallDescriptor.functionName ⟨"bar", []⟩) = none ∧
    (dispatch ([] : List (String × (Params → Nat × List Nat))) none).1 =
      Except.error "Invalid function or parsing failed" :=
  ⟨rfl, (failures_indistinguishable [] ⟨"bar", []⟩ rfl).2⟩

end Sendmail
